import Mathlib

/-!
Verification of the `CnStd` facade (`cnstd/cn_std.py`).

The facade normalizes the caller's input (single image vs. list/tuple of
images), delegates to the detection model, optionally re-threads the
angle-classifier (orientation rectifier) output back onto the per-image,
per-box results, and unwraps a single result when a single image was passed.

External collaborators (the detection model `Detector`/`PPDetector`, the
`AngleClassifier`, and the model registry `AVAILABLE_MODELS.get_space`) are
modelled as function parameters; the facade logic itself is translated
directly from the source.  Scores, angles and box coordinates are modelled
as rationals.
-/

namespace CnStdSpec

/-- A detected region: either an axis-aligned rectangle
`[xmin, ymin, xmax, ymax]` (when `rotated_bbox == False`) or a rotated
rectangle `[x, y, w, h, angle]` (when `rotated_bbox == True`). -/
inductive DetectedRegion : Type where
  | axisAligned (x_min y_min x_max y_max : ℚ)
  | rotated (x y w h angle : ℚ)
  deriving Repr, DecidableEq

/-- The width of a detected region. -/
def DetectedRegion.width : DetectedRegion → ℚ
  | .axisAligned x_min _ x_max _ => x_max - x_min
  | .rotated _ _ w _ _ => w

/-- The height of a detected region. -/
def DetectedRegion.height : DetectedRegion → ℚ
  | .axisAligned _ y_min _ y_max => y_max - y_min
  | .rotated _ _ _ h _ => h

/-- One entry of `detected_texts`: the dict
`{'box': ..., 'score': ..., 'cropped_img': ...}`.  The pixel content of a
cropped image is abstract (type `α`). -/
structure TextInfo (α : Type) where
  box : DetectedRegion
  score : ℚ
  cropped_img : α
  deriving Repr, DecidableEq

/-- A per-image detection result: the dict with keys `'rotated_angle'` and
`'detected_texts'`. -/
structure DetectionOut (α : Type) where
  rotated_angle : ℚ
  detected_texts : List (TextInfo α)
  deriving Repr, DecidableEq

/-- A Python value as far as `CnStd.detect`'s `isinstance` dispatch can tell
it apart: a `str` path, a `pathlib.Path`, a `PIL.Image.Image`, an
`np.ndarray`, a `list`, a `tuple`, or any other value (identified by the
name of its type, as produced by `str(type(v))`). -/
inductive PyVal (α : Type) : Type where
  | strV (s : String)
  | pathV (s : String)
  | pilV (img : α)
  | ndarrayV (img : α)
  | listV (xs : List (PyVal α))
  | tupleV (xs : List (PyVal α))
  | otherV (typeName : String)

/-- Whether a value is one of the single-image types of the second
`isinstance` check: `str`, `Path`, `Image.Image` or `np.ndarray`. -/
def isSingleImage {α : Type} : PyVal α → Bool
  | .strV _ => true
  | .pathV _ => true
  | .pilV _ => true
  | .ndarrayV _ => true
  | _ => false

/-- The parameters of `CnStd.detect` that are forwarded to
`self.det_model.detect`. -/
structure DetectParams where
  resized_shape : ℕ × ℕ
  preserve_aspect_ratio : Bool
  min_box_size : ℤ
  box_score_thresh : ℚ
  batch_size : ℕ
  deriving Repr, DecidableEq

/-- Extra keyword arguments (`**kwargs`) of `CnStd.detect`; the docstring
says they are reserved and currently unused. -/
def Kwargs : Type := List (String × String)

/-- The return value of `CnStd.detect`: a single result dict if a single
image was passed, else the list of result dicts. -/
inductive DetectReturn (α : Type) : Type where
  | single (r : DetectionOut α)
  | multi (rs : List (DetectionOut α))
  deriving Repr, DecidableEq

/-- The input-normalization prologue of `CnStd.detect` (lines 156-163):
a `list`/`tuple` passes through with `single = False`, a `str`/`Path`/
`Image.Image`/`np.ndarray` is wrapped into a one-element list with
`single = True`, and anything else raises
`TypeError('type %s is not supported now' % str(type(img_list)))`. -/
def normalizeInput {α : Type} (img_list : PyVal α) :
    Except String (List (PyVal α) × Bool) :=
  match img_list with
  | .listV xs => .ok (xs, false)
  | .tupleV xs => .ok (xs, false)
  | .strV s => .ok ([.strV s], true)
  | .pathV s => .ok ([.pathV s], true)
  | .pilV i => .ok ([.pilV i], true)
  | .ndarrayV a => .ok ([.ndarrayV a], true)
  | .otherV t => .error ("type " ++ t ++ " is not supported now")

/-- The write-back loop
`for info, crop_img in zip(out['detected_texts'], crop_img_list):
info['cropped_img'] = crop_img`: `zip` stops at the shorter sequence, so
trailing entries keep their original crop and extra crops are dropped. -/
def writeBack {α : Type} : List (TextInfo α) → List α → List (TextInfo α)
  | [], _ => []
  | infos, [] => infos
  | info :: infos, c :: cs => { info with cropped_img := c } :: writeBack infos cs

/-- The state of a constructed `CnStd` object: the `use_angle_clf` flag,
the detection model `self.det_model` (an external collaborator, modelled as
a function from the normalized image list and parameters to per-image
results), and `self.angle_clf` (set only when `use_angle_clf` was true at
construction; `γ` is the type of the classifier's second return value). -/
structure CnStd (α γ : Type) where
  use_angle_clf : Bool
  det_model : List (PyVal α) → DetectParams → List (DetectionOut α)
  angle_clf : Option (List α → List α × γ)

/-- The angle-classification loop of `CnStd.detect` (lines 174-179): for
each per-image result, gather that image's crops, call `self.angle_clf`
once on them, and write the corrected crops back.  Accessing
`self.angle_clf` when it was never set raises `AttributeError` (only when
the loop body actually runs).  Returns the updated results together with
the trace of argument lists passed to the classifier, in call order. -/
def rectifyAll {α γ : Type} (clf : Option (List α → List α × γ)) :
    List (DetectionOut α) → Except String (List (DetectionOut α) × List (List α))
  | [] => .ok ([], [])
  | out :: rest =>
    match clf with
    | none => .error ("AttributeError: CnStd object has no attribute angle_clf")
    | some f =>
      let crop_img_list := out.detected_texts.map (·.cropped_img)
      let corrected := (f crop_img_list).1
      match rectifyAll clf rest with
      | .error e => .error e
      | .ok (rs, trace) =>
        .ok ({ out with detected_texts := writeBack out.detected_texts corrected }
              :: rs, crop_img_list :: trace)

/-- Model of `CnStd.detect` (lines 156-181), instrumented with the trace of
angle-classifier calls: normalize the input, call `self.det_model.detect`
on the normalized list, run the angle-classification loop when
`self.use_angle_clf`, and return `outs[0]` if a single image was passed
(an empty `outs` then raises `IndexError`), else `outs`.  The second
component records each list of crops passed to `self.angle_clf`. -/
def CnStd.detectRun {α γ : Type} (std : CnStd α γ) (img_list : PyVal α)
    (p : DetectParams) (kwargs : Kwargs) :
    Except String (DetectReturn α) × List (List α) :=
  match normalizeInput img_list with
  | .error e => (.error e, [])
  | .ok (lst, single) =>
    let outs := std.det_model lst p
    match (if std.use_angle_clf then rectifyAll std.angle_clf outs
           else .ok (outs, [])) with
    | .error e => (.error e, [])
    | .ok (outs2, trace) =>
      if single then
        match outs2 with
        | [] => (.error ("IndexError: list index out of range"), trace)
        | o :: _ => (.ok (.single o), trace)
      else (.ok (.multi outs2), trace)

/-- The value returned (or the exception raised) by `CnStd.detect`. -/
def CnStd.detect {α γ : Type} (std : CnStd α γ) (img_list : PyVal α)
    (p : DetectParams) (kwargs : Kwargs) : Except String (DetectReturn α) :=
  (std.detectRun img_list p kwargs).1

/-- The trace of angle-classifier invocations made by one `CnStd.detect`
call: one entry per call, holding the list of crops passed to that call. -/
def CnStd.clfCalls {α γ : Type} (std : CnStd α γ) (img_list : PyVal α)
    (p : DetectParams) (kwargs : Kwargs) : List (List α) :=
  (std.detectRun img_list p kwargs).2

/-- Well-formedness of a `CnStd` state as `__init__` produces it: `self.angle_clf` exists
whenever `self.use_angle_clf` is set. -/
def CnStd.WF {α γ : Type} (std : CnStd α γ) : Prop :=
  std.use_angle_clf = true → std.angle_clf.isSome = true

instance {α γ : Type} (std : CnStd α γ) : Decidable std.WF := by
  unfold CnStd.WF; infer_instance

/-- One iteration of the angle-classification loop on a single per-image
result: classify that image's crops in box order and write them back. -/
def rectifyOut {α γ : Type} (f : List α → List α × γ) (out : DetectionOut α) :
    DetectionOut α :=
  let crop_img_list := out.detected_texts.map (·.cropped_img)
  { out with detected_texts := writeBack out.detected_texts (f crop_img_list).1 }

/-- The crops of one per-image result, in box order. -/
def cropsOf {α : Type} (out : DetectionOut α) : List α :=
  out.detected_texts.map (·.cropped_img)

/-- The `AVAILABLE_MODELS.CNSTD_SPACE` constant of the model registry. -/
def CNSTD_SPACE : String := "cnstd"

/-- The `PP_SPACE` constant of the `ppocr` subpackage. -/
def PP_SPACE : String := "ppocr"

/-- The constructor arguments of `CnStd.__init__` relevant to model-space
dispatch and classifier creation. -/
structure InitArgs where
  model_name : String
  model_backend : String
  use_angle_clf : Bool

/-- Model of `CnStd.__init__` (lines 76-100): look up the model space of
`(model_name, model_backend)` in the registry, pick `Detector` for the
CnSTD space and `PPDetector` for the PP space, raise `NotImplementedError`
for any other space, then build the detector and (only if `use_angle_clf`)
the angle classifier.  The registry lookup and the collaborator
constructors are external and passed in as functions. -/
def cnStdInit {α γ : Type}
    (get_space : String → String → Option String)
    (mkDetector mkPPDetector : List (PyVal α) → DetectParams → List (DetectionOut α))
    (mkAngleClassifier : List α → List α × γ)
    (a : InitArgs) : Except String (CnStd α γ) :=
  let space := get_space a.model_name a.model_backend
  if space = some CNSTD_SPACE then
    .ok { use_angle_clf := a.use_angle_clf
          det_model := mkDetector
          angle_clf := if a.use_angle_clf then some mkAngleClassifier else none }
  else if space = some PP_SPACE then
    .ok { use_angle_clf := a.use_angle_clf
          det_model := mkPPDetector
          angle_clf := if a.use_angle_clf then some mkAngleClassifier else none }
  else
    .error ("(" ++ a.model_name ++ ", " ++ a.model_backend
             ++ ") is not supported currently")

/-- Modelled from the spec: the BoxDecoder size/score filter (spec section
4.2, step 4) of the external `Detector`/`PPDetector`, whose source is not
part of this repository slice: regions with `width < min_box_size` or
`height < min_box_size` are discarded, as are regions with
`score < box_score_thresh`; the survivors keep their discovery order. -/
def boxFilter {α : Type} (min_box_size : ℤ) (box_score_thresh : ℚ)
    (cands : List (TextInfo α)) : List (TextInfo α) :=
  cands.filter (fun info =>
    decide ((min_box_size : ℚ) ≤ info.box.width) &&
    decide ((min_box_size : ℚ) ≤ info.box.height) &&
    decide (box_score_thresh ≤ info.score))

/-- Modelled from the spec: the BatchDetectionPipeline (spec section 4.4)
of the external detection model, whose source is not part of this
repository slice: one `DetectionResult` per input image, in input order;
each image's `detected_texts` are its decoded candidate regions after the
section-4.2 size/score filter.  Raw decoding and whole-image rotation
estimation are abstracted as the functions `decode` and `rotAngle`. -/
def pipelineDetect {α : Type}
    (decode : PyVal α → DetectParams → List (TextInfo α))
    (rotAngle : PyVal α → ℚ)
    (imgs : List (PyVal α)) (p : DetectParams) : List (DetectionOut α) :=
  imgs.map (fun img =>
    { rotated_angle := rotAngle img
      detected_texts := boxFilter p.min_box_size p.box_score_thresh (decode img p) })

/-- The per-image results carried by a `detect` return value. -/
def returnedResults {α : Type} : DetectReturn α → List (DetectionOut α)
  | .single r => [r]
  | .multi rs => rs

/- Concrete fixtures used by witness and counterexample theorems; crops are
identified by natural numbers. -/

/-- A detected-text entry passing the default size/score filter. -/
def sampleInfo : TextInfo ℕ :=
  { box := .rotated 100 100 40 20 0, score := 1/2, cropped_img := 5 }

/-- A per-image result with a single detected box. -/
def sampleOut : DetectionOut ℕ :=
  { rotated_angle := 0, detected_texts := [sampleInfo] }

/-- A detection model returning `out` once per input image. -/
def constModel (out : DetectionOut ℕ) :
    List (PyVal ℕ) → DetectParams → List (DetectionOut ℕ) :=
  fun xs _ => xs.map (fun _ => out)

/-- An angle classifier shifting every crop identifier by 100. -/
def shiftClf : List ℕ → List ℕ × Unit := fun cs => (cs.map (· + 100), ())

/-- A facade state without orientation rectification. -/
def stdPlain : CnStd ℕ Unit :=
  { use_angle_clf := false, det_model := constModel sampleOut, angle_clf := none }

/-- A facade state with orientation rectification enabled. -/
def stdClf : CnStd ℕ Unit :=
  { use_angle_clf := true, det_model := constModel sampleOut, angle_clf := some shiftClf }

/-- The default parameter values of `CnStd.detect`. -/
def defaultParams : DetectParams :=
  { resized_shape := (768, 768), preserve_aspect_ratio := true,
    min_box_size := 8, box_score_thresh := 3/10, batch_size := 20 }

/-- A detected-text entry failing the default size/score filter
(width 6 < 8, height 4 < 8, score 1/5 < 3/10). -/
def filteredInfo : TextInfo ℕ :=
  { box := .rotated 50 50 6 4 0, score := 1/5, cropped_img := 9 }

/-- A raw decode collaborator producing one passing and one failing
candidate per image. -/
def decodeW : PyVal ℕ → DetectParams → List (TextInfo ℕ) :=
  fun _ _ => [sampleInfo, filteredInfo]

/-- A whole-image rotation collaborator reporting no rotation. -/
def rotW : PyVal ℕ → ℚ := fun _ => 0

/-- A facade state whose detection model is the spec-modelled pipeline. -/
def stdPipe : CnStd ℕ Unit :=
  { use_angle_clf := false, det_model := pipelineDetect decodeW rotW, angle_clf := none }

/- Helper lemmas about the write-back loop and the classification loop. -/

theorem writeBack_nil_crops {α : Type} (infos : List (TextInfo α)) :
    writeBack infos [] = infos := by
  cases infos <;> rfl

theorem writeBack_cons_cons {α : Type} (info : TextInfo α)
    (infos : List (TextInfo α)) (c : α) (cs : List α) :
    writeBack (info :: infos) (c :: cs) =
      { info with cropped_img := c } :: writeBack infos cs := rfl

theorem writeBack_length {α : Type} (infos : List (TextInfo α)) (cs : List α) :
    (writeBack infos cs).length = infos.length := by
  induction infos generalizing cs with
  | nil => cases cs <;> rfl
  | cons info infos ih =>
    cases cs with
    | nil => rfl
    | cons c cs => simpa [writeBack_cons_cons] using ih cs

theorem writeBack_box_score {α : Type} (infos : List (TextInfo α))
    (cs : List α) (i : ℕ) :
    ((writeBack infos cs)[i]?).map (·.box) = (infos[i]?).map (·.box) ∧
    ((writeBack infos cs)[i]?).map (·.score) = (infos[i]?).map (·.score) := by
  induction infos generalizing cs i with
  | nil => cases cs <;> exact ⟨rfl, rfl⟩
  | cons info infos ih =>
    cases cs with
    | nil => exact ⟨rfl, rfl⟩
    | cons c cs =>
      cases i with
      | zero => rw [writeBack_cons_cons]; simp
      | succ i => simpa [writeBack_cons_cons] using ih cs i

theorem writeBack_crop {α : Type} (infos : List (TextInfo α)) (cs : List α)
    (hlen : cs.length = infos.length) (i : ℕ) :
    ((writeBack infos cs)[i]?).map (·.cropped_img) = cs[i]? := by
  induction infos generalizing cs i with
  | nil =>
    cases cs with
    | nil => cases i <;> rfl
    | cons c cs => simp at hlen
  | cons info infos ih =>
    cases cs with
    | nil => simp at hlen
    | cons c cs =>
      cases i with
      | zero => rw [writeBack_cons_cons]; simp
      | succ i =>
        simpa [writeBack_cons_cons] using ih cs (by simpa using hlen) i

theorem writeBack_mem {α : Type} (infos : List (TextInfo α)) (cs : List α)
    (t : TextInfo α) (ht : t ∈ writeBack infos cs) :
    ∃ t0 ∈ infos, t.box = t0.box ∧ t.score = t0.score := by
  induction infos generalizing cs with
  | nil => cases cs <;> simp [writeBack] at ht
  | cons info infos ih =>
    cases cs with
    | nil =>
      rw [writeBack_nil_crops] at ht
      exact ⟨t, ht, rfl, rfl⟩
    | cons c cs =>
      rw [writeBack_cons_cons] at ht
      rcases List.mem_cons.mp ht with h | h
      · exact ⟨info, List.mem_cons_self _ _, by rw [h], by rw [h]⟩
      · obtain ⟨t0, ht0, hb, hs⟩ := ih cs h
        exact ⟨t0, List.mem_cons_of_mem _ ht0, hb, hs⟩

theorem rectifyAll_some {α γ : Type} (f : List α → List α × γ)
    (outs : List (DetectionOut α)) :
    rectifyAll (some f) outs = .ok (outs.map (rectifyOut f), outs.map cropsOf) := by
  induction outs with
  | nil => rfl
  | cons out rest ih => simp [rectifyAll, ih, rectifyOut, cropsOf]

theorem cnStdInit_wf {α γ : Type} (get_space : String → String → Option String)
    (mkDetector mkPPDetector : List (PyVal α) → DetectParams → List (DetectionOut α))
    (mkAngleClassifier : List α → List α × γ) (a : InitArgs) (std : CnStd α γ)
    (h : cnStdInit get_space mkDetector mkPPDetector mkAngleClassifier a = .ok std) :
    std.WF := by
  simp only [cnStdInit] at h
  by_cases h1 : get_space a.model_name a.model_backend = some CNSTD_SPACE
  · rw [if_pos h1] at h
    cases h
    intro hu
    simp only at hu
    simp [hu]
  · rw [if_neg h1] at h
    by_cases h2 : get_space a.model_name a.model_backend = some PP_SPACE
    · rw [if_pos h2] at h
      cases h
      intro hu
      simp only at hu
      simp [hu]
    · rw [if_neg h2] at h
      exact Except.noConfusion h

theorem normalizeInput_single {α : Type} (img : PyVal α)
    (h : isSingleImage img = true) : normalizeInput img = .ok ([img], true) := by
  cases img <;> first | rfl | simp [isSingleImage] at h

theorem detectRun_noclf {α γ : Type} (std : CnStd α γ)
    (h : std.use_angle_clf = false) (img_list : PyVal α)
    (lst : List (PyVal α)) (single : Bool)
    (hn : normalizeInput img_list = .ok (lst, single))
    (p : DetectParams) (kw : Kwargs) :
    std.detectRun img_list p kw =
      ((if single then
          match std.det_model lst p with
          | [] => .error ("IndexError: list index out of range")
          | o :: _ => .ok (.single o)
        else .ok (.multi (std.det_model lst p))), []) := by
  unfold CnStd.detectRun
  rw [hn, h]
  rcases hd : std.det_model lst p with _ | ⟨o, os⟩ <;> cases single <;> simp [hd]

theorem detectRun_clf {α γ : Type} (std : CnStd α γ) (f : List α → List α × γ)
    (hu : std.use_angle_clf = true) (hf : std.angle_clf = some f)
    (img_list : PyVal α) (lst : List (PyVal α)) (single : Bool)
    (hn : normalizeInput img_list = .ok (lst, single))
    (p : DetectParams) (kw : Kwargs) :
    std.detectRun img_list p kw =
      ((if single then
          match (std.det_model lst p).map (rectifyOut f) with
          | [] => .error ("IndexError: list index out of range")
          | o :: _ => .ok (.single o)
        else .ok (.multi ((std.det_model lst p).map (rectifyOut f)))),
       (std.det_model lst p).map cropsOf) := by
  unfold CnStd.detectRun
  rw [hn, hu, hf]
  rcases hd : std.det_model lst p with _ | ⟨o, os⟩ <;> cases single <;>
    simp [hd, rectifyAll_some]

/-- C3 (amended: the accepted set also contains tuples).  An argument to
`CnStd.detect` that is not a path (`str`/`Path`), a `PIL.Image.Image`, an
`np.ndarray`, a `list` or a `tuple` raises
`TypeError('type %s is not supported now')` at the input-normalization
prologue: the result is the error for every facade state (in particular,
for every detection model and classifier, so no detection work contributes
to it) and the classifier-call trace is empty, so no partial results are
produced. -/
theorem detect_unsupported_input_rejected {α γ : Type} (std : CnStd α γ)
    (t : String) (p : DetectParams) (kw : Kwargs) :
    std.detectRun (.otherV t) p kw =
      (.error ("type " ++ t ++ " is not supported now"), []) := by
  unfold CnStd.detectRun
  rfl

/-- Counterexample to C3 as stated: a `tuple` is not a path, not an image
object, not a raw array and not a `list` of these, yet `CnStd.detect`
accepts it and returns results instead of raising the
unsupported-input-type `TypeError`. -/
theorem detect_unsupported_input_rejected_counterexample :
    stdPlain.detect (.tupleV [PyVal.ndarrayV 0]) defaultParams [] =
      .ok (.multi [sampleOut]) ∧
    stdPlain.detect (.tupleV [PyVal.ndarrayV 0]) defaultParams [] ≠
      .error ("type " ++ "tuple" ++ " is not supported now") :=
  ⟨rfl, fun h => Except.noConfusion h⟩

/-- C8.  The extra keyword arguments (`**kwargs`) of `CnStd.detect` are
accepted but never forwarded to the detection model or the angle
classifier: two calls differing only in `kwargs` return identical results
and make identical classifier calls. -/
theorem detect_kwargs_no_effect {α γ : Type} (std : CnStd α γ)
    (img_list : PyVal α) (p : DetectParams) (kw1 kw2 : Kwargs) :
    std.detectRun img_list p kw1 = std.detectRun img_list p kw2 := rfl

/-- C10.  A `tuple` input is treated exactly like a `list` input: the whole
run (result and classifier calls) coincides with the run on the
corresponding list, and a `single`-style return (the unwrapped `outs[0]`)
only ever happens for a bare `str`/`Path`/`PIL.Image.Image`/`np.ndarray`
input. -/
theorem detect_tuple_like_list :
    ∀ (α γ : Type) (std : CnStd α γ) (p : DetectParams) (kw : Kwargs),
      (∀ xs : List (PyVal α),
        std.detectRun (.tupleV xs) p kw = std.detectRun (.listV xs) p kw) ∧
      (∀ (inp : PyVal α) (r : DetectionOut α),
        std.detect inp p kw = .ok (.single r) → isSingleImage inp = true) := by
  intro α γ std p kw
  constructor
  · intro xs; rfl
  · intro inp r hdet
    cases inp with
    | strV s => rfl
    | pathV s => rfl
    | pilV i => rfl
    | ndarrayV a => rfl
    | otherV t =>
      exfalso
      simp only [CnStd.detect, CnStd.detectRun, normalizeInput] at hdet
      exact Except.noConfusion hdet
    | listV xs =>
      exfalso
      simp only [CnStd.detect, CnStd.detectRun, normalizeInput] at hdet
      split at hdet <;> simp_all
    | tupleV xs =>
      exfalso
      simp only [CnStd.detect, CnStd.detectRun, normalizeInput] at hdet
      split at hdet <;> simp_all

/-- Witness for C10 at a concrete facade state: a bare `np.ndarray` input
that produced a single-style return is indeed of a single-image type. -/
theorem detect_tuple_like_list_witness :
    isSingleImage (PyVal.ndarrayV (0 : ℕ)) = true :=
  (detect_tuple_like_list ℕ Unit stdPlain defaultParams []).2
    (PyVal.ndarrayV 0) sampleOut rfl

/-- C1.  Single/list symmetry of `CnStd.detect`: for every accepted single
input (path, PIL image or ndarray), the call returns a single result dict
equal to the unique element of the list returned for the one-element-list
input; and every list input yields one result per input image, in input
order (the facade returns the detection model's per-image results as-is,
or maps the per-image rectification step over them index-wise). -/
theorem detect_single_list_symmetry {α γ : Type} (std : CnStd α γ)
    (p : DetectParams) (kw : Kwargs) (img : PyVal α)
    (hwf : std.WF) (hsingle : isSingleImage img = true)
    (hlen : ∀ xs : List (PyVal α), (std.det_model xs p).length = xs.length) :
    (∃ o, std.detect img p kw = .ok (.single o) ∧
          std.detect (.listV [img]) p kw = .ok (.multi [o])) ∧
    (∀ xs : List (PyVal α), ∃ rs,
       std.detect (.listV xs) p kw = .ok (.multi rs) ∧
       rs.length = xs.length ∧
       ((std.use_angle_clf = false ∧ rs = std.det_model xs p) ∨
        (∃ f, std.angle_clf = some f ∧
              rs = (std.det_model xs p).map (rectifyOut f)))) := by
  have hn1 : normalizeInput img = .ok ([img], true) := normalizeInput_single img hsingle
  cases hu : std.use_angle_clf with
  | false =>
    constructor
    · obtain ⟨o, ho⟩ := List.length_eq_one.mp (hlen [img])
      refine ⟨o, ?_, ?_⟩
      · simp [CnStd.detect, detectRun_noclf std hu img [img] true hn1 p kw, ho]
      · simp [CnStd.detect,
          detectRun_noclf std hu (.listV [img]) [img] false rfl p kw, ho]
    · intro xs
      refine ⟨std.det_model xs p, ?_, hlen xs, Or.inl ⟨rfl, rfl⟩⟩
      simp [CnStd.detect, detectRun_noclf std hu (.listV xs) xs false rfl p kw]
  | true =>
    obtain ⟨f, hf⟩ := Option.isSome_iff_exists.mp (hwf hu)
    constructor
    · obtain ⟨o, ho⟩ := List.length_eq_one.mp (hlen [img])
      refine ⟨rectifyOut f o, ?_, ?_⟩
      · simp [CnStd.detect, detectRun_clf std f hu hf img [img] true hn1 p kw, ho]
      · simp [CnStd.detect,
          detectRun_clf std f hu hf (.listV [img]) [img] false rfl p kw, ho]
    · intro xs
      refine ⟨(std.det_model xs p).map (rectifyOut f), ?_, by simp [hlen xs],
        Or.inr ⟨f, hf, rfl⟩⟩
      simp [CnStd.detect, detectRun_clf std f hu hf (.listV xs) xs false rfl p kw]

/-- Witness for C1 at a concrete facade state with rectification enabled:
`detect` on a bare ndarray returns exactly the first (and only) element of
the result for the one-element-list input. -/
theorem detect_single_list_symmetry_witness :
    stdClf.detect (PyVal.ndarrayV 3) defaultParams [] =
      .ok (.single (rectifyOut shiftClf sampleOut)) ∧
    stdClf.detect (.listV [PyVal.ndarrayV 3]) defaultParams [] =
      .ok (.multi [rectifyOut shiftClf sampleOut]) := by
  obtain ⟨o, h1, h2⟩ := (detect_single_list_symmetry stdClf defaultParams []
    (PyVal.ndarrayV 3) (by decide) rfl
    (fun xs => by simp [stdClf, constModel])).1
  have hv : stdClf.detect (PyVal.ndarrayV 3) defaultParams [] =
      Except.ok (DetectReturn.single (rectifyOut shiftClf sampleOut)) := rfl
  have ho : o = rectifyOut shiftClf sampleOut := by
    have h3 := h1.symm.trans hv
    simpa using h3
  rw [ho] at h1 h2
  exact ⟨h1, h2⟩

/-- Counterexample to C2: with orientation rectification enabled and two
input images with one detected box each, `CnStd.detect` invokes the angle
classifier twice — once per image, each call receiving only that image's
crops — not exactly once with all crops gathered into one flat sequence. -/
theorem detect_clf_single_call_counterexample :
    stdClf.clfCalls (.listV [PyVal.ndarrayV 1, PyVal.ndarrayV 2])
        defaultParams [] = [[5], [5]] ∧
    (stdClf.clfCalls (.listV [PyVal.ndarrayV 1, PyVal.ndarrayV 2])
        defaultParams []).length ≠ 1 :=
  ⟨rfl, by decide⟩

/-- C2 (amended).  When orientation rectification is enabled, the facade
invokes the angle classifier once per per-image result (in input order),
each call receiving exactly that image's crops in box order — not once per
detect call over all images' crops. -/
theorem detect_clf_called_once_per_image {α γ : Type} (std : CnStd α γ)
    (f : List α → List α × γ)
    (hu : std.use_angle_clf = true) (hf : std.angle_clf = some f)
    (xs : List (PyVal α)) (p : DetectParams) (kw : Kwargs) :
    std.clfCalls (.listV xs) p kw = (std.det_model xs p).map cropsOf := by
  simp [CnStd.clfCalls, detectRun_clf std f hu hf (.listV xs) xs false rfl p kw]

/-- Witness for the amended C2: on two concrete images the classifier-call
trace is exactly the per-image crop lists. -/
theorem detect_clf_called_once_per_image_witness :
    stdClf.clfCalls (.listV [PyVal.ndarrayV 4, PyVal.ndarrayV 6])
        defaultParams [] =
      (stdClf.det_model [PyVal.ndarrayV 4, PyVal.ndarrayV 6]
          defaultParams).map cropsOf :=
  detect_clf_called_once_per_image stdClf shiftClf rfl rfl
    [PyVal.ndarrayV 4, PyVal.ndarrayV 6] defaultParams []

/-- C9.  The facade validates only the top-level type of its argument: any
list passes the type check without its elements being inspected, so a list
whose elements lie outside the supported image-representation set is never
rejected with the unsupported-input-type `TypeError` at the facade; the
element list is forwarded to the detection model as-is. -/
theorem detect_list_elements_unchecked {α γ : Type} (std : CnStd α γ)
    (hwf : std.WF) (xs : List (PyVal α)) (p : DetectParams) (kw : Kwargs) :
    (∃ rs, std.detect (.listV xs) p kw = .ok (.multi rs)) ∧
    (std.use_angle_clf = false →
      std.detect (.listV xs) p kw = .ok (.multi (std.det_model xs p))) := by
  cases hu : std.use_angle_clf with
  | false =>
    refine ⟨⟨std.det_model xs p, ?_⟩, fun _ => ?_⟩ <;>
      simp [CnStd.detect, detectRun_noclf std hu (.listV xs) xs false rfl p kw]
  | true =>
    obtain ⟨f, hf⟩ := Option.isSome_iff_exists.mp (hwf hu)
    refine ⟨⟨(std.det_model xs p).map (rectifyOut f), ?_⟩,
      fun h => by simp at h⟩
    simp [CnStd.detect, detectRun_clf std f hu hf (.listV xs) xs false rfl p kw]

/-- Witness for C9: a list containing a Python `int` — not an image
representation — is accepted by the facade and its elements are forwarded
to the detection model as-is. -/
theorem detect_list_elements_unchecked_witness :
    stdPlain.detect (.listV [PyVal.otherV ("int")]) defaultParams [] =
      .ok (.multi (stdPlain.det_model [PyVal.otherV ("int")] defaultParams)) :=
  (detect_list_elements_unchecked stdPlain (by decide)
    [PyVal.otherV ("int")] defaultParams []).2 rfl

/-- C4.  When orientation rectification is enabled and the rectifier meets
its contract (output crops equal in number and order to its input crops),
the corrected crop at position `i` is written back to exactly the box the
`i`-th input crop came from, for every image and every box: counts,
ordering and the box-to-crop correspondence are preserved. -/
theorem detect_rectifier_round_trip {α γ : Type} (std : CnStd α γ)
    (f : List α → List α × γ)
    (hu : std.use_angle_clf = true) (hf : std.angle_clf = some f)
    (hcontract : ∀ cs : List α, (f cs).1.length = cs.length)
    (xs : List (PyVal α)) (p : DetectParams) (kw : Kwargs)
    (rs : List (DetectionOut α))
    (hdet : std.detect (.listV xs) p kw = .ok (.multi rs)) :
    rs.length = (std.det_model xs p).length ∧
    ∀ (k : ℕ) (out : DetectionOut α), (std.det_model xs p)[k]? = some out →
      ∃ r, rs[k]? = some r ∧
        r.detected_texts.length = out.detected_texts.length ∧
        ∀ i : ℕ,
          (r.detected_texts[i]?).map (·.box) =
            (out.detected_texts[i]?).map (·.box) ∧
          (r.detected_texts[i]?).map (·.score) =
            (out.detected_texts[i]?).map (·.score) ∧
          (r.detected_texts[i]?).map (·.cropped_img) = (f (cropsOf out)).1[i]? := by
  have hrs : rs = (std.det_model xs p).map (rectifyOut f) := by
    unfold CnStd.detect at hdet
    rw [detectRun_clf std f hu hf (.listV xs) xs false rfl p kw] at hdet
    simp at hdet
    exact hdet.symm
  subst hrs
  refine ⟨by simp, fun k out hout => ?_⟩
  refine ⟨rectifyOut f out, ?_, ?_, fun i => ?_⟩
  · simp [hout]
  · simp [rectifyOut, writeBack_length]
  · have hb := writeBack_box_score out.detected_texts (f (cropsOf out)).1 i
    have hc := writeBack_crop out.detected_texts (f (cropsOf out)).1
      (by simp [hcontract, cropsOf]) i
    exact ⟨by simpa [rectifyOut, cropsOf] using hb.1,
           by simpa [rectifyOut, cropsOf] using hb.2,
           by simpa [rectifyOut, cropsOf] using hc⟩

/-- Witness for C4 on a concrete run: at box 0 of the only image, the
returned crop is the classifier's output crop 0 and the box is
unchanged. -/
theorem detect_rectifier_round_trip_witness :
    ((rectifyOut shiftClf sampleOut).detected_texts[0]?).map (·.cropped_img) =
      (shiftClf (cropsOf sampleOut)).1[0]? ∧
    ((rectifyOut shiftClf sampleOut).detected_texts[0]?).map (·.box) =
      (sampleOut.detected_texts[0]?).map (·.box) := by
  obtain ⟨-, h⟩ := detect_rectifier_round_trip stdClf shiftClf rfl rfl
    (fun cs => by simp [shiftClf]) [PyVal.ndarrayV 2] defaultParams []
    [rectifyOut shiftClf sampleOut] rfl
  obtain ⟨r, hr, -, hp⟩ := h 0 sampleOut (by simp [stdClf, constModel])
  have hreq : rectifyOut shiftClf sampleOut = r := by simpa using hr
  rw [hreq]
  exact ⟨(hp 0).2.2, (hp 0).1⟩

/-- C5.  When orientation rectification is enabled, only the
`'cropped_img'` field of each detected-text entry may change between the
detection model's output and the value returned by `CnStd.detect`: the
result list is the index-wise rectification of the model's output, and
rectification preserves `rotated_angle`, every `box`, every `score`, and
the number and order of `detected_texts` entries — for any classifier
behaviour whatsoever. -/
theorem detect_only_crops_change {α γ : Type} (std : CnStd α γ)
    (f : List α → List α × γ)
    (hu : std.use_angle_clf = true) (hf : std.angle_clf = some f)
    (xs : List (PyVal α)) (p : DetectParams) (kw : Kwargs)
    (rs : List (DetectionOut α))
    (hdet : std.detect (.listV xs) p kw = .ok (.multi rs)) :
    rs = (std.det_model xs p).map (rectifyOut f) ∧
    ∀ out : DetectionOut α,
      (rectifyOut f out).rotated_angle = out.rotated_angle ∧
      (rectifyOut f out).detected_texts.length = out.detected_texts.length ∧
      ∀ i : ℕ,
        ((rectifyOut f out).detected_texts[i]?).map (·.box) =
          (out.detected_texts[i]?).map (·.box) ∧
        ((rectifyOut f out).detected_texts[i]?).map (·.score) =
          (out.detected_texts[i]?).map (·.score) := by
  have hrs : rs = (std.det_model xs p).map (rectifyOut f) := by
    unfold CnStd.detect at hdet
    rw [detectRun_clf std f hu hf (.listV xs) xs false rfl p kw] at hdet
    simp at hdet
    exact hdet.symm
  refine ⟨hrs, fun out => ⟨rfl, by simp [rectifyOut, writeBack_length], fun i => ?_⟩⟩
  have hb := writeBack_box_score out.detected_texts
    (f (out.detected_texts.map (·.cropped_img))).1 i
  exact ⟨by simpa [rectifyOut] using hb.1, by simpa [rectifyOut] using hb.2⟩

/-- Witness for C5 on a concrete run with a crop-shifting classifier: the
returned list is the rectification of the model output, and box and score
of entry 0 are unchanged. -/
theorem detect_only_crops_change_witness :
    [rectifyOut shiftClf sampleOut] =
      (stdClf.det_model [PyVal.ndarrayV 2] defaultParams).map
        (rectifyOut shiftClf) ∧
    ((rectifyOut shiftClf sampleOut).detected_texts[0]?).map (·.score) =
      (sampleOut.detected_texts[0]?).map (·.score) := by
  obtain ⟨h1, h2⟩ := detect_only_crops_change stdClf shiftClf rfl rfl
    [PyVal.ndarrayV 2] defaultParams [] [rectifyOut shiftClf sampleOut] rfl
  exact ⟨h1, ((h2 sampleOut).2.2 0).2⟩

/-- C6.  A `(model_name, model_backend)` combination whose registry space
is neither the CnSTD space nor the PP space makes `CnStd.__init__` raise
`NotImplementedError` immediately, before the detector or the angle
classifier is constructed: the result is the error and carries no state. -/
theorem init_unknown_space_rejected {α γ : Type}
    (get_space : String → String → Option String)
    (mkDetector mkPPDetector : List (PyVal α) → DetectParams → List (DetectionOut α))
    (mkAngleClassifier : List α → List α × γ) (a : InitArgs)
    (h1 : get_space a.model_name a.model_backend ≠ some CNSTD_SPACE)
    (h2 : get_space a.model_name a.model_backend ≠ some PP_SPACE) :
    cnStdInit get_space mkDetector mkPPDetector mkAngleClassifier a =
      .error ("(" ++ a.model_name ++ ", " ++ a.model_backend
               ++ ") is not supported currently") := by
  simp [cnStdInit, h1, h2]

/-- Witness for C6: a registry that knows no model rejects a concrete
model/backend pair at construction time. -/
theorem init_unknown_space_rejected_witness :
    cnStdInit (α := ℕ) (γ := Unit) (fun _ _ => none) (constModel sampleOut)
        (constModel sampleOut) shiftClf
        { model_name := "bad_model", model_backend := "pytorch",
          use_angle_clf := false } =
      .error ("(" ++ "bad_model" ++ ", " ++ "pytorch"
               ++ ") is not supported currently") :=
  init_unknown_space_rejected (fun _ _ => none) (constModel sampleOut)
    (constModel sampleOut) shiftClf
    { model_name := "bad_model", model_backend := "pytorch",
      use_angle_clf := false } (by simp) (by simp)

theorem pipelineDetect_filter_mem {α : Type}
    (decode : PyVal α → DetectParams → List (TextInfo α))
    (rotAngle : PyVal α → ℚ) (imgs : List (PyVal α)) (p : DetectParams)
    (out : DetectionOut α) (hout : out ∈ pipelineDetect decode rotAngle imgs p)
    (info : TextInfo α) (hinfo : info ∈ out.detected_texts) :
    (p.min_box_size : ℚ) ≤ info.box.width ∧
    (p.min_box_size : ℚ) ≤ info.box.height ∧
    p.box_score_thresh ≤ info.score := by
  simp only [pipelineDetect, List.mem_map] at hout
  obtain ⟨img, -, hO⟩ := hout
  rw [← hO] at hinfo
  simp only [boxFilter, List.mem_filter, Bool.and_eq_true, decide_eq_true_eq]
    at hinfo
  exact ⟨hinfo.2.1.1, hinfo.2.1.2, hinfo.2.2⟩

theorem rectifyOut_mem_box_score {α γ : Type} (f : List α → List α × γ)
    (out : DetectionOut α) (info : TextInfo α)
    (hinfo : info ∈ (rectifyOut f out).detected_texts) :
    ∃ info0 ∈ out.detected_texts, info.box = info0.box ∧ info.score = info0.score := by
  simp only [rectifyOut] at hinfo
  exact writeBack_mem _ _ _ hinfo

theorem detect_result_from_model {α γ : Type} (std : CnStd α γ)
    (hwf : std.WF) (inp : PyVal α) (p : DetectParams) (kw : Kwargs)
    (r : DetectReturn α) (hdet : std.detect inp p kw = .ok r)
    (out : DetectionOut α) (hout : out ∈ returnedResults r) :
    (∃ lst, out ∈ std.det_model lst p) ∨
    (∃ g, std.angle_clf = some g ∧
       ∃ lst, ∃ out0 ∈ std.det_model lst p, out = rectifyOut g out0) := by
  rcases hn : normalizeInput inp with e | ⟨lst, single⟩
  · unfold CnStd.detect CnStd.detectRun at hdet
    rw [hn] at hdet
    simp at hdet
  · cases hu : std.use_angle_clf with
    | false =>
      unfold CnStd.detect at hdet
      rw [detectRun_noclf std hu inp lst single hn p kw] at hdet
      cases single with
      | true =>
        rcases ho : std.det_model lst p with _ | ⟨o, os⟩ <;> rw [ho] at hdet <;>
          simp at hdet
        left
        refine ⟨lst, ?_⟩
        rw [← hdet] at hout
        simp only [returnedResults, List.mem_singleton] at hout
        rw [hout, ho]
        exact List.mem_cons_self _ _
      | false =>
        simp at hdet
        left
        refine ⟨lst, ?_⟩
        rw [← hdet] at hout
        simpa [returnedResults] using hout
    | true =>
      obtain ⟨g, hg⟩ := Option.isSome_iff_exists.mp (hwf hu)
      unfold CnStd.detect at hdet
      rw [detectRun_clf std g hu hg inp lst single hn p kw] at hdet
      cases single with
      | true =>
        rcases ho : std.det_model lst p with _ | ⟨o, os⟩ <;> rw [ho] at hdet <;>
          simp at hdet
        right
        refine ⟨g, hg, lst, o, ?_, ?_⟩
        · rw [ho]; exact List.mem_cons_self _ _
        · rw [← hdet] at hout
          simpa [returnedResults] using hout
      | false =>
        simp at hdet
        rw [← hdet] at hout
        simp only [returnedResults, List.mem_map] at hout
        obtain ⟨out0, hm, hval⟩ := hout
        exact Or.inr ⟨g, hg, lst, out0, hm, hval.symm⟩

/-- C7.  When the facade's detection model is the (spec-modelled) batched
detection pipeline, every emitted detected-text entry in every result
returned by `CnStd.detect` has width and height at least `min_box_size`
and score at least `box_score_thresh`, for all parameter values — whether
or not orientation rectification is enabled, since rectification changes
only the crops. -/
theorem detect_size_score_filter {α γ : Type} (std : CnStd α γ)
    (decode : PyVal α → DetectParams → List (TextInfo α))
    (rotAngle : PyVal α → ℚ)
    (hdm : std.det_model = pipelineDetect decode rotAngle)
    (hwf : std.WF) (inp : PyVal α) (p : DetectParams) (kw : Kwargs)
    (r : DetectReturn α) (hdet : std.detect inp p kw = .ok r) :
    ∀ out ∈ returnedResults r, ∀ info ∈ out.detected_texts,
      (p.min_box_size : ℚ) ≤ info.box.width ∧
      (p.min_box_size : ℚ) ≤ info.box.height ∧
      p.box_score_thresh ≤ info.score := by
  intro out hout info hinfo
  rcases detect_result_from_model std hwf inp p kw r hdet out hout with
    ⟨lst, hm⟩ | ⟨g, -, lst, out0, hm0, hval⟩
  · rw [hdm] at hm
    exact pipelineDetect_filter_mem decode rotAngle lst p out hm info hinfo
  · rw [hval] at hinfo
    obtain ⟨info0, hm1, hbox, hscore⟩ := rectifyOut_mem_box_score g out0 info hinfo
    rw [hdm] at hm0
    have := pipelineDetect_filter_mem decode rotAngle lst p out0 hm0 info0 hm1
    rw [hbox, hscore]
    exact this

/-- Witness for C7: a concrete pipeline run on one image with one passing
and one filtered candidate; the surviving entry satisfies the bounds. -/
theorem detect_size_score_filter_witness :
    (defaultParams.min_box_size : ℚ) ≤ sampleInfo.box.width ∧
    (defaultParams.min_box_size : ℚ) ≤ sampleInfo.box.height ∧
    defaultParams.box_score_thresh ≤ sampleInfo.score :=
  detect_size_score_filter stdPipe decodeW rotW rfl (by decide)
    (PyVal.ndarrayV 1) defaultParams []
    (.single { rotated_angle := 0, detected_texts := [sampleInfo] })
    (by
      unfold CnStd.detect
      rw [detectRun_noclf stdPipe rfl (PyVal.ndarrayV 1) [PyVal.ndarrayV 1]
        true rfl defaultParams []]
      norm_num [stdPipe, pipelineDetect, boxFilter, decodeW, rotW, sampleInfo,
        filteredInfo, defaultParams, DetectedRegion.width,
        DetectedRegion.height, List.filter])
    { rotated_angle := 0, detected_texts := [sampleInfo] }
    (by simp [returnedResults]) sampleInfo (by simp)

end CnStdSpec
